import Mathlib

/-!
# Verification of the CV Builder API orchestration layer

A shallow embedding of `src/server.js` (kenjiakira/API): the conversation
store, the exponential-backoff retry wrapper, prompt composition (including
the JavaScript `String.prototype.replace` semantics used for template
placeholders), and the `/api/generate-cv` request handler, together with the
route table of the Express application.

Modelling conventions:
* JavaScript strings are Lean `String`s; optional request fields are
  `Option String`, and JavaScript truthiness of a string-or-undefined value
  is the predicate `truthy` (absent, or the empty string, is falsy).
* JavaScript numbers appearing in the backoff computation
  (`initialDelay * Math.pow(1.5, retries)`) are modelled as exact rationals;
  `1.5` and its small powers are exactly representable, so no rounding is
  modelled.
* The external world of the handler (the clock, the image download, and the
  generative-model provider) is a `HandlerEnv`: `provider k` is the outcome
  of the `k`-th attempt of `model.generateContent`, and `download` the
  outcome of the single `axios` fetch when one is attempted.
* Image bytes are carried as an opaque token (a `String`); the base64
  transport encoding performed by `fileToGenerativePart` is abstracted as
  the token itself, since no claim concerns the encoding of the bytes, only
  the shape and position of the encoded part in the payload.
* `await`/`async` sequencing is direct value passing: the handler is a pure
  function from environment, store and request to response, new store and
  the payload it sent to the model (`none` when no model call is made).
-/

/-! ## Strings: JavaScript `includes` and `replace` -/

/-- `isPrefixList pat s`: `pat` is a prefix of `s` (over `List Char`). -/
def isPrefixList : List Char → List Char → Bool
  | [], _ => true
  | _ :: _, [] => false
  | a :: as, b :: bs => (a == b) && isPrefixList as bs

/-- `containsSub pat s`: `pat` occurs somewhere in `s` (substring test). -/
def containsSub (pat : List Char) : List Char → Bool
  | [] => isPrefixList pat []
  | c :: rest => isPrefixList pat (c :: rest) || containsSub pat rest

/-- JavaScript `s.includes(pat)`. -/
def containsSubstr (s pat : String) : Bool :=
  containsSub pat.data s.data

/-- ECMAScript `GetSubstitution` for a string search value (no capture
groups): expands `$$`, `$&`, `` $` `` and `$'` in the replacement text;
a `$` followed by anything else is literal. -/
def getSubstitution (matched before after : List Char) : List Char → List Char
  | [] => []
  | c :: rest =>
    if c = '$' then
      match rest with
      | [] => [c]
      | d :: rest2 =>
        if d = '$' then '$' :: getSubstitution matched before after rest2
        else if d = '&' then matched ++ getSubstitution matched before after rest2
        else if d = Char.ofNat 96 then before ++ getSubstitution matched before after rest2
        else if d = Char.ofNat 39 then after ++ getSubstitution matched before after rest2
        else c :: d :: getSubstitution matched before after rest2
    else c :: getSubstitution matched before after rest

/-- Scanning worker for `jsReplace`: `acc` is the (reversed) part of the
subject already scanned without a match. At the first position where
`pat` is a prefix of the rest, the replacement (with `GetSubstitution`
expansion) is spliced in and scanning stops. -/
def jsReplaceAux (pat rep : List Char) (acc s : List Char) : List Char :=
  if isPrefixList pat s then
    acc.reverse ++ getSubstitution pat acc.reverse (s.drop pat.length) rep ++ s.drop pat.length
  else
    match s with
    | [] => acc.reverse
    | c :: rest => jsReplaceAux pat rep (c :: acc) rest

/-- JavaScript `s.replace(searchValue, replaceValue)` with a string search
value: replaces the first occurrence only; returns `s` unchanged when
`searchValue` does not occur. -/
def jsReplace (s searchValue replaceValue : String) : String :=
  ⟨jsReplaceAux searchValue.data replaceValue.data [] s.data⟩

/-- `server.js` line 110: transient-failure classification — the error
message contains `"503"` or `"overloaded"`. -/
def isTransient (msg : String) : Bool :=
  containsSubstr msg "503" || containsSubstr msg "overloaded"

/-! ## RetryPolicy: `retryWithExponentialBackoff` (`server.js` 102-118) -/

/-- Loop of `retryWithExponentialBackoff`. `op k` is the outcome of the
`k`-th call of the wrapped operation; in the source the attempt index
always equals the current value of the `retries` counter, so the counter
doubles as the call index. The loop guard `retries >= maxRetries` is
carried as the structurally decreasing budget `fuel = maxRetries - retries`
(`fuel = 0` iff the guard holds, since `retries` only ever increments from
`0`). Returns the final outcome, the total time waited between attempts
(ms, exact arithmetic), and the number of retries performed; a retry waits
`initialDelay * 1.5 ^ (retries + 1)`. -/
def retryAux {α : Type} (op : Nat → Except String α) (initialDelay : ℚ) :
    Nat → Nat → ℚ → Except String α × ℚ × Nat
  | fuel, retries, waited =>
    match op retries with
    | .ok v => (.ok v, waited, retries)
    | .error e =>
      match fuel with
      | 0 => (.error e, waited, retries)
      | f + 1 =>
        if isTransient e then
          retryAux op initialDelay f (retries + 1)
            (waited + initialDelay * (3 / 2 : ℚ) ^ (retries + 1))
        else (.error e, waited, retries)

/-- `retryWithExponentialBackoff(fn, maxRetries, initialDelay)`. -/
def retryWithExponentialBackoff {α : Type} (op : Nat → Except String α)
    (maxRetries : Nat) (initialDelay : ℚ) : Except String α × ℚ × Nat :=
  retryAux op initialDelay maxRetries 0 0

/-! ## ConversationStore (`conversations` object, `server.js` 50, 120-130) -/

/-- The process-wide `conversations` object: an insertion-ordered map from
thread identifier to the thread's turn log. -/
abbrev Store : Type := List (String × List String)

/-- Property lookup on the `conversations` object. -/
def storeGet : Store → String → Option (List String)
  | [], _ => none
  | (k, v) :: rest, key => if k = key then some v else storeGet rest key

/-- Property assignment on the `conversations` object (replace in place, or
add at the end for a new key). -/
def storeSet : Store → String → List String → Store
  | [], key, v => [(key, v)]
  | (k, w) :: rest, key, v =>
    if k = key then (key, v) :: rest else (k, w) :: storeSet rest key v

/-- JavaScript truthiness of an optional string: `undefined`/absent and the
empty string are falsy. -/
def truthy : Option String → Bool
  | none => false
  | some s => !s.isEmpty

/-- Result of `getConversation` (`server.js` 120-130): resolved identifier,
the live history array as read at call time, and the store with the key
ensured to exist. -/
structure ConvRes where
  threadID : String
  history : List String
  store : Store

/-- `getConversation(threadID)` (`server.js` 120-130): a falsy `threadID`
is replaced by `'cv-' + Date.now()`; a missing key is initialised to the
empty log. -/
def getConversation (store : Store) (threadID : Option String) (now : Nat) : ConvRes :=
  let id := if truthy threadID then threadID.getD "" else "cv-" ++ toString now
  match storeGet store id with
  | some h => ⟨id, h, store⟩
  | none => ⟨id, [], storeSet store id []⟩

/-- Body of the eviction loop, with explicit fuel (the loop removes one
element per iteration, so `l.length` steps always suffice). -/
def evictLoopFuel : Nat → List String → List String
  | 0, l => l
  | n + 1, l => if 20 < l.length then evictLoopFuel n l.tail else l

/-- The eviction loop `while (conversations[id].length > 20) shift()`
(`server.js` 234-236). -/
def evictLoop (l : List String) : List String :=
  evictLoopFuel l.length l

/-- One spec-level `append`: push one turn, then evict from the front while
over the cap of 20. The source performs two pushes then one eviction loop;
`recordTurns` below is that source operation. -/
def appendTurn (h : List String) (t : String) : List String :=
  evictLoop (h ++ [t])

/-- A sequence of `append`s starting from a given log. -/
def appendAll (h : List String) (ts : List String) : List String :=
  List.foldl appendTurn h ts

/-- The source's success-path mutation (`server.js` 230-236): push the
`User` turn, push the `CV Assistant` turn, then run the eviction loop. -/
def recordTurns (h : List String) (u a : String) : List String :=
  evictLoop (h ++ [u, a])

/-! ## Prompt composition (`server.js` 206-220) -/

/-- `history.join("\n")` (`server.js` 196). -/
def joinNL (l : List String) : String :=
  String.intercalate "\n" l

/-- `server.js` 16. -/
def DEFAULT_SYSTEM_PROMPT : String :=
  "You are a professional CV assistant that helps create and format excellent resumes and CVs."

/-- Template-mode composition (`server.js` 214-217): three chained
`String.replace` calls, in the order `{context}`, `{system_prompt}`,
`{prompt}`. -/
def composeTemplate (tpl context systemPrompt userInput : String) : String :=
  jsReplace (jsReplace (jsReplace tpl "{context}" context) "{system_prompt}" systemPrompt)
    "{prompt}" userInput

/-- The encoded image part produced by `fileToGenerativePart`
(`server.js` 87-100): base64 data (abstracted as the opaque byte token)
with a hardcoded JPEG media type. -/
structure InlinePart where
  data : String
  mimeType : String
deriving DecidableEq

/-- `fileToGenerativePart(imageData)`. -/
def fileToGenerativePart (bytes : String) : InlinePart :=
  ⟨bytes, "image/jpeg"⟩

/-- The payload handed to `model.generateContent`: either a single text
blob, or the three-part `[systemPrompt, imagePart, text]` array of the
image branch (`server.js` 203). -/
inductive Payload where
  | text (s : String)
  | multi (system : String) (image : InlinePart) (txt : String)
deriving DecidableEq

/-! ## The `/api/generate-cv` handler (`server.js` 142-260) -/

/-- External effects observed by one request: the clock (`Date.now()`), the
outcome of the image download when one is attempted (the error string is
the transport error's message), and the outcome of each successive
`model.generateContent` attempt. -/
structure HandlerEnv where
  now : Nat
  download : Except String String
  provider : Nat → Except String String

/-- The request body fields the handler reads (`server.js` 144-154).
`temperature`/`maxTokens` only feed the generation config, which no claim
concerns, and are omitted. `systemPrompt = none` models an absent field,
on which the declaration default `DEFAULT_SYSTEM_PROMPT` applies. -/
structure GenReq where
  prompt : Option String
  threadID : Option String
  imageUrl : Option String
  cvData : Option String
  customPromptTemplate : Option String
  systemPrompt : Option String
  clearHistory : Bool

/-- The JSON responses the handler can produce. `error`/`message`/
`responseText`/`threadID` are `none` when the corresponding key is absent
from the body; the ISO timestamp field is not modelled. -/
structure HttpResp where
  status : Nat
  success : Bool
  error : Option String
  message : Option String
  responseText : Option String
  threadID : Option String
deriving DecidableEq

/-- `downloadImage(url)` (`server.js` 55-85, production branch): wraps any
transport failure as `Failed to download image: <cause>`. -/
def downloadImage (outcome : Except String String) : Except String String :=
  match outcome with
  | .ok b => .ok b
  | .error m => .error ("Failed to download image: " ++ m)

/-- `server.js` 190-236, from `getConversation` onward, after validation
and a (possibly absent, possibly successful) image download. Note that
`context` is computed from the `history` array reference obtained *before*
the `clearHistory` reassignment, exactly as in the source. -/
def generateCvAfterImage (env : HandlerEnv) (store : Store) (req : GenReq)
    (imageData : Option String) : HttpResp × Store × Option Payload :=
  let conv := getConversation store req.threadID env.now
  let conversationId := conv.threadID
  let store2 := if req.clearHistory then storeSet conv.store conversationId [] else conv.store
  let context := joinNL conv.history
  let sys := req.systemPrompt.getD DEFAULT_SYSTEM_PROMPT
  let payload :=
    match imageData with
    | some b =>
      Payload.multi sys (fileToGenerativePart b)
        (if truthy req.prompt then req.prompt.getD "" else "Parse this CV/resume image")
    | none =>
      let userInput :=
        if truthy req.cvData then
          "Please format and improve this CV/resume data:\n" ++ req.cvData.getD "" ++ "\n" ++
            req.prompt.getD ""
        else req.prompt.getD ""
      let fullPrompt :=
        if truthy req.customPromptTemplate then
          composeTemplate (req.customPromptTemplate.getD "") context sys userInput
        else sys ++ "\n" ++ context ++ "\nUser: " ++ userInput ++ "\nResponse:"
      Payload.text fullPrompt
  match (retryWithExponentialBackoff env.provider 2 500).1 with
  | .error e =>
    (⟨500, false, some "Generation failed", some e, none, none⟩, store2, some payload)
  | .ok response =>
    let hist2 := (storeGet store2 conversationId).getD []
    let userTurn := if truthy req.prompt then req.prompt.getD "" else req.cvData.getD ""
    let hist3 := recordTurns hist2 ("User: " ++ userTurn) ("CV Assistant: " ++ response)
    (⟨200, true, none, none, some response, some conversationId⟩,
      storeSet store2 conversationId hist3, some payload)

/-- The `/api/generate-cv` handler (`server.js` 142-260): validation, then
the optional image download, then `generateCvAfterImage`. The third
component is the payload sent to the model, `none` when no model call was
attempted. -/
def generateCv (env : HandlerEnv) (store : Store) (req : GenReq) :
    HttpResp × Store × Option Payload :=
  if !truthy req.prompt && !truthy req.cvData then
    (⟨400, false, some "Either prompt or cvData is required", none, none, none⟩, store, none)
  else if truthy req.imageUrl then
    match downloadImage env.download with
    | .error msg =>
      (⟨400, false, some ("Image processing failed: " ++ msg), none, none, none⟩, store, none)
    | .ok bytes => generateCvAfterImage env store req (some bytes)
  else generateCvAfterImage env store req none

/-- The store after the handler's pre-steps (key creation by
`getConversation` and the optional `clearHistory` reset), before any model
call. -/
def preStepStore (env : HandlerEnv) (store : Store) (req : GenReq) : Store :=
  let conv := getConversation store req.threadID env.now
  if req.clearHistory then storeSet conv.store conv.threadID [] else conv.store

/-! ## Route table (`server.js` 133, 142, 262, 304, 367-372) -/

/-- The routes registered on the Express app, in registration order. -/
inductive RouteMatch where
  | test
  | generateCv
  | formatCv
  | improveCv
  | notFound
deriving DecidableEq

/-- Dispatch of a request to the route table; anything unmatched falls
through to the 404 handler (`server.js` 367-372). -/
def routeOf (method p : String) : RouteMatch :=
  if method = "GET" && p = "/test" then .test
  else if method = "POST" && p = "/api/generate-cv" then .generateCv
  else if method = "POST" && p = "/api/format-cv" then .formatCv
  else if method = "POST" && p = "/api/improve-cv" then .improveCv
  else .notFound

/-- The 404 fallback response (`server.js` 367-372). -/
def endpointNotFoundResp : HttpResp :=
  ⟨404, false, some "Endpoint not found", none, none, none⟩

/-! ## Helper lemmas -/

theorem storeGet_storeSet_self (s : Store) (k : String) (v : List String) :
    storeGet (storeSet s k v) k = some v := by
  induction s with
  | nil => simp [storeSet, storeGet]
  | cons p rest ih =>
    obtain ⟨k2, w⟩ := p
    by_cases h : k2 = k
    · subst h; simp [storeSet, storeGet]
    · simp [storeSet, storeGet, h, ih]

theorem storeGet_storeSet_ne (s : Store) (k : String) (v : List String) (k2 : String)
    (h : k ≠ k2) : storeGet (storeSet s k v) k2 = storeGet s k2 := by
  induction s with
  | nil => simp [storeSet, storeGet, h]
  | cons p rest ih =>
    obtain ⟨k3, w⟩ := p
    by_cases h2 : k3 = k
    · subst h2; simp [storeSet, storeGet, h]
    · simp [storeSet, storeGet, h2, ih]

theorem evictLoopFuel_eq_drop :
    ∀ (n : Nat) (l : List String), l.length ≤ n →
      evictLoopFuel n l = l.drop (l.length - 20) := by
  intro n
  induction n with
  | zero =>
    intro l h
    have : l = [] := List.length_eq_zero.mp (Nat.le_zero.mp h)
    subst this; rfl
  | succ m ih =>
    intro l h
    unfold evictLoopFuel
    by_cases h20 : 20 < l.length
    · rw [if_pos h20, ih l.tail (by rw [List.length_tail]; omega)]
      rw [← List.drop_one, List.drop_drop, List.length_drop]
      congr 1
      omega
    · rw [if_neg h20]
      have h0 : l.length - 20 = 0 := by omega
      rw [h0, List.drop_zero]

theorem evictLoop_eq_drop (l : List String) : evictLoop l = l.drop (l.length - 20) :=
  evictLoopFuel_eq_drop l.length l le_rfl

theorem appendAll_nil_eq_drop (ts : List String) :
    appendAll [] ts = ts.drop (ts.length - 20) := by
  induction ts using List.reverseRecOn with
  | nil => rfl
  | append_singleton ts a ih =>
    unfold appendAll at ih ⊢
    rw [List.foldl_append, List.foldl_cons, List.foldl_nil, ih]
    unfold appendTurn
    rw [evictLoop_eq_drop, List.length_append, List.length_drop]
    by_cases hL : ts.length ≤ 19
    · have h1 : ts.length - 20 = 0 := by omega
      rw [h1, List.drop_zero]
      congr 1
      simp only [List.length_append, List.length_cons, List.length_nil]
      omega
    · have h2 : ts.length - (ts.length - 20) + List.length [a] - 20 = 1 := by
        simp only [List.length_cons, List.length_nil]
        omega
      rw [h2]
      rw [List.drop_append_of_le_length (by rw [List.length_drop]; omega)]
      rw [List.drop_drop]
      have h3 : (ts ++ [a]).length - 20 = ts.length - 20 + 1 := by
        simp only [List.length_append, List.length_cons, List.length_nil]
        omega
      rw [h3]
      rw [List.drop_append_of_le_length (by omega)]

theorem jsReplaceAux_of_not_contains (pat rep : List Char) :
    ∀ (s acc : List Char), containsSub pat s = false →
      jsReplaceAux pat rep acc s = acc.reverse ++ s := by
  intro s
  induction s with
  | nil =>
    intro acc h
    unfold containsSub at h
    unfold jsReplaceAux
    simp [h]
  | cons c rest ih =>
    intro acc h
    unfold containsSub at h
    rw [Bool.or_eq_false_iff] at h
    unfold jsReplaceAux
    rw [h.1]
    simp only [Bool.false_eq_true, if_false]
    rw [ih _ h.2]
    simp

theorem jsReplace_of_not_contains (s pat rep : String) (h : containsSubstr s pat = false) :
    jsReplace s pat rep = s := by
  unfold containsSubstr at h
  unfold jsReplace
  rw [jsReplaceAux_of_not_contains _ _ _ _ h]
  simp

theorem retryAux_all_transient {α : Type} (op : Nat → Except String α) (d : ℚ) (v : α) :
    ∀ (fuel j : Nat) (W : ℚ),
      (∀ k, j ≤ k → k < j + fuel → ∃ e, op k = .error e ∧ isTransient e = true) →
      op (j + fuel) = .ok v →
      retryAux op d fuel j W =
        (.ok v, W + ∑ i in Finset.range fuel, d * (3 / 2 : ℚ) ^ (j + 1 + i), j + fuel) := by
  intro fuel
  induction fuel with
  | zero =>
    intro j W _ hok
    rw [Nat.add_zero] at hok
    unfold retryAux
    rw [hok]
    simp
  | succ f ih =>
    intro j W hfail hok
    obtain ⟨e, he, ht⟩ := hfail j le_rfl (by omega)
    unfold retryAux
    rw [he]
    simp only [ht, if_true]
    rw [ih (j + 1) _ (fun k hk1 hk2 => hfail k (by omega) (by omega))
      (by rw [show j + 1 + f = j + (f + 1) from by omega]; exact hok)]
    have hsum : W + d * (3 / 2 : ℚ) ^ (j + 1) + ∑ i in Finset.range f, d * (3 / 2 : ℚ) ^ (j + 1 + 1 + i)
        = W + ∑ i in Finset.range (f + 1), d * (3 / 2 : ℚ) ^ (j + 1 + i) := by
      rw [Finset.sum_range_succ']
      rw [Finset.sum_congr rfl (fun i _ =>
        show d * (3 / 2 : ℚ) ^ (j + 1 + (i + 1)) = d * (3 / 2 : ℚ) ^ (j + 1 + 1 + i) from by
          ring_nf)]
      ring
    rw [hsum]
    rw [show j + 1 + f = j + (f + 1) from by omega]

/-! ## Claim theorems -/

/-- C4: for every thread, after any sequence of N appended turns the stored
turn count is `min N 20`, the retained turns are exactly the most recent
`min N 20` turns in original insertion order (the drop of all but the last
20), and the sequence length stays ≤ 20 after every further append. -/
theorem conversation_history_cap (ts h : List String) (t : String) (hcap : h.length ≤ 20) :
    (appendAll [] ts).length = min ts.length 20 ∧
    appendAll [] ts = ts.drop (ts.length - 20) ∧
    (appendTurn h t).length ≤ 20 := by
  refine ⟨?_, appendAll_nil_eq_drop ts, ?_⟩
  · rw [appendAll_nil_eq_drop ts, List.length_drop]
    omega
  · unfold appendTurn
    rw [evictLoop_eq_drop, List.length_drop, List.length_append]
    simp only [List.length_cons, List.length_nil]
    omega

/-- C4 witness: concrete instantiation of `conversation_history_cap`. -/
theorem conversation_history_cap_witness :
    (appendAll [] ["a", "b"]).length = min (List.length ["a", "b"]) 20 ∧
    appendAll [] ["a", "b"] = List.drop (List.length ["a", "b"] - 20) ["a", "b"] ∧
    (appendTurn ["c"] "d").length ≤ 20 :=
  conversation_history_cap ["a", "b"] ["c"] "d" (by decide)

/-- C5: an operation that fails with a transient-classified error exactly
`maxRetries` times and then succeeds makes `retryWithExponentialBackoff`
return the success value, after `maxRetries` retries, with the total time
waited between attempts equal to `∑ i in [1, maxRetries], initialDelay * 1.5 ^ i`. -/
theorem retry_transient_then_success {α : Type} (op : Nat → Except String α)
    (maxRetries : Nat) (initialDelay : ℚ) (v : α)
    (hfail : ∀ k, k < maxRetries → ∃ e, op k = .error e ∧ isTransient e = true)
    (hok : op maxRetries = .ok v) :
    retryWithExponentialBackoff op maxRetries initialDelay =
      (.ok v, ∑ i in Finset.Icc 1 maxRetries, initialDelay * (3 / 2 : ℚ) ^ i, maxRetries) := by
  unfold retryWithExponentialBackoff
  rw [retryAux_all_transient op initialDelay v maxRetries 0 0
    (fun k _ hk2 => hfail k (by omega)) (by rw [Nat.zero_add]; exact hok)]
  rw [← Nat.Ico_succ_right, Finset.sum_Ico_eq_sum_range]
  norm_num

/-- C5 witness: an operation failing transiently twice (a `503`, then an
`overloaded` message) before succeeding, under the handler's parameters
`maxRetries = 2`, `initialDelay = 500`. -/
theorem retry_transient_then_success_witness :
    retryWithExponentialBackoff
        (fun k => if k = 0 then Except.error "http 503"
          else if k = 1 then Except.error "model overloaded" else Except.ok "hi") 2 500 =
      (.ok "hi", ∑ i in Finset.Icc 1 2, (500 : ℚ) * (3 / 2 : ℚ) ^ i, 2) :=
  retry_transient_then_success _ 2 500 "hi"
    (fun k hk => by
      interval_cases k
      · exact ⟨"http 503", rfl, by decide⟩
      · exact ⟨"model overloaded", rfl, by decide⟩)
    rfl

/-- C6: an operation whose first failure is non-transient — its message
contains neither "503" nor "overloaded" — has that failure propagated
unchanged by `retryWithExponentialBackoff`, with zero retries performed and
zero total backoff wait. -/
theorem retry_nontransient_propagates {α : Type} (op : Nat → Except String α)
    (maxRetries : Nat) (initialDelay : ℚ) (e : String)
    (h0 : op 0 = .error e)
    (h503 : containsSubstr e "503" = false)
    (hov : containsSubstr e "overloaded" = false) :
    retryWithExponentialBackoff op maxRetries initialDelay = (.error e, 0, 0) := by
  have hnt : isTransient e = false := by
    unfold isTransient
    rw [h503, hov]
    rfl
  unfold retryWithExponentialBackoff retryAux
  rw [h0]
  cases maxRetries with
  | zero => rfl
  | succ f => simp [hnt]

/-- C6 witness: a non-transient failure at the first attempt propagates at
once. -/
theorem retry_nontransient_propagates_witness :
    retryWithExponentialBackoff (fun _ => (Except.error "boom" : Except String String)) 2 500 =
      (.error "boom", 0, 0) :=
  retry_nontransient_propagates _ 2 500 "boom" rfl (by decide) (by decide)

/-- C2 counterexample: substitution is not single-pass. With template
`"{context}"` and context value `"{prompt}"`, the claim predicts the output
`"{prompt}"` (the substituted value, its placeholder-shaped content left
alone), but the chained `String.replace` calls substitute the user input
into it, yielding `"C"`. -/
theorem composeTemplate_not_single_pass :
    composeTemplate "{context}" "{prompt}" "B" "C" = "C" ∧
    composeTemplate "{context}" "{prompt}" "B" "C" ≠ "{prompt}" := by
  exact ⟨by decide, by decide⟩

/-- C2 (amended): substitution is three sequential first-occurrence
replacements in the order `{context}`, `{system_prompt}`, `{prompt}`; later
passes re-scan already-substituted text, so placeholder-shaped strings
inside substituted values can themselves be replaced; a template containing
no placeholder is returned as-is; the concrete example still yields exactly
`"SYS:B|CTX:A|Q:C"`. -/
theorem composeTemplate_sequential (t c s p : String)
    (h1 : containsSubstr t "{context}" = false)
    (h2 : containsSubstr t "{system_prompt}" = false)
    (h3 : containsSubstr t "{prompt}" = false) :
    composeTemplate "SYS:{system_prompt}|CTX:{context}|Q:{prompt}" "A" "B" "C" = "SYS:B|CTX:A|Q:C" ∧
    composeTemplate t c s p = t := by
  refine ⟨by decide, ?_⟩
  unfold composeTemplate
  rw [jsReplace_of_not_contains t _ _ h1, jsReplace_of_not_contains t _ _ h2,
    jsReplace_of_not_contains t _ _ h3]

/-- C2 witness: a placeholder-free template passes through unchanged. -/
theorem composeTemplate_sequential_witness :
    composeTemplate "SYS:{system_prompt}|CTX:{context}|Q:{prompt}" "A" "B" "C" = "SYS:B|CTX:A|Q:C" ∧
    composeTemplate "plain text" "A" "B" "C" = "plain text" :=
  composeTemplate_sequential "plain text" "A" "B" "C" (by decide) (by decide) (by decide)

/-- C3 (code bug): the application registers no route for
`GET /api/conversation/:threadID`, so every such request — whether or not
the thread exists in the store — falls through to the 404 fallback, whose
body is `{success:false, error:"Endpoint not found"}`, not the documented
`{success, threadID, history}` nor the 404 `"Conversation not found"`
body. -/
theorem conversation_route_missing :
    routeOf "GET" "/api/conversation/cv-123" = RouteMatch.notFound ∧
    endpointNotFoundResp.status = 404 ∧
    endpointNotFoundResp.success = false ∧
    endpointNotFoundResp.error = some "Endpoint not found" ∧
    endpointNotFoundResp.error ≠ some "Conversation not found" := by
  exact ⟨by decide, rfl, rfl, rfl, by decide⟩

/-- C1 (code bug): a generate request with `clearHistory` on an existing
thread does reset the stored turn sequence, but the prompt for that very
request is composed from the `history` array reference captured before the
reset, so the rendered context still contains all pre-clear turns — it is
not the empty string the spec promises (the payload under an empty context
would have been `"S\n" ++ joinNL [] ++ "\nUser: hi\nResponse:"`). -/
theorem clearHistory_stale_context :
    generateCv ⟨0, .error "unused", fun _ => .ok "ok"⟩
        [("t", ["User: old", "CV Assistant: old reply"])]
        ⟨some "hi", some "t", none, none, none, some "S", true⟩
      = (⟨200, true, none, none, some "ok", some "t"⟩,
         [("t", ["User: hi", "CV Assistant: ok"])],
         some (.text "S\nUser: old\nCV Assistant: old reply\nUser: hi\nResponse:")) ∧
    Payload.text "S\nUser: old\nCV Assistant: old reply\nUser: hi\nResponse:"
      ≠ Payload.text ("S\n" ++ joinNL [] ++ "\nUser: hi\nResponse:") := by
  exact ⟨by decide, by decide⟩

/-- C9: a generate request carrying neither a prompt nor cvData is rejected
with HTTP 400 and `success:false`; no model call is made (no payload is
sent) and the conversation store is completely unchanged, so no thread is
created. -/
theorem missing_prompt_and_cvData_rejected (env : HandlerEnv) (store : Store) (req : GenReq)
    (hp : truthy req.prompt = false) (hc : truthy req.cvData = false) :
    generateCv env store req =
      (⟨400, false, some "Either prompt or cvData is required", none, none, none⟩, store, none) := by
  unfold generateCv
  rw [hp, hc]
  rfl

/-- C9 witness: the empty request against the empty store. -/
theorem missing_prompt_and_cvData_rejected_witness :
    generateCv ⟨0, .error "u", fun _ => .ok "r"⟩ []
        ⟨none, none, none, none, none, none, false⟩ =
      (⟨400, false, some "Either prompt or cvData is required", none, none, none⟩, [], none) :=
  missing_prompt_and_cvData_rejected _ _ _ (by decide) (by decide)

/-- C8: a generate request (passing validation) whose image download fails
is answered 400 with `success:false` and the image-processing error wrapping
the download failure's message; no model call is attempted (no payload is
sent) and the store — hence every thread's turn sequence — is unchanged. -/
theorem image_download_failure_short_circuits (env : HandlerEnv) (store : Store) (req : GenReq)
    (msg : String)
    (hv : (truthy req.prompt || truthy req.cvData) = true)
    (hurl : truthy req.imageUrl = true)
    (hdl : env.download = .error msg) :
    generateCv env store req =
      (⟨400, false, some ("Image processing failed: Failed to download image: " ++ msg),
        none, none, none⟩, store, none) := by
  unfold generateCv
  have hval : (!truthy req.prompt && !truthy req.cvData) = false := by
    cases hpp : truthy req.prompt <;> cases hcc : truthy req.cvData <;> simp_all
  rw [hval, hurl]
  simp [downloadImage, hdl]
  rw [← String.append_assoc]
  congr 1

/-- C8 witness: a request with a prompt and a failing image URL. -/
theorem image_download_failure_short_circuits_witness :
    generateCv ⟨0, .error "connect ECONNREFUSED", fun _ => .ok "r"⟩ []
        ⟨some "hi", none, some "http://img", none, none, none, false⟩ =
      (⟨400, false,
        some ("Image processing failed: Failed to download image: " ++ "connect ECONNREFUSED"),
        none, none, none⟩, [], none) :=
  image_download_failure_short_circuits _ _ _ "connect ECONNREFUSED"
    (by decide) (by decide) rfl

/-- C10: when the image download succeeds, the payload sent to the model is
exactly the three-part sequence of the system prompt, the encoded image
part, and the prompt — with the literal `"Parse this CV/resume image"` as
third part when no prompt was supplied; the right-hand side mentions
neither `cvData` nor `customPromptTemplate`, which therefore contribute
nothing even when `cvData` alone satisfied validation. -/
theorem image_payload_three_parts (env : HandlerEnv) (store : Store) (req : GenReq)
    (bytes : String)
    (hv : (truthy req.prompt || truthy req.cvData) = true)
    (hurl : truthy req.imageUrl = true)
    (hdl : env.download = .ok bytes) :
    (generateCv env store req).2.2 =
      some (Payload.multi (req.systemPrompt.getD DEFAULT_SYSTEM_PROMPT)
        (fileToGenerativePart bytes)
        (if truthy req.prompt then req.prompt.getD "" else "Parse this CV/resume image")) := by
  unfold generateCv
  have hval : (!truthy req.prompt && !truthy req.cvData) = false := by
    cases hpp : truthy req.prompt <;> cases hcc : truthy req.cvData <;> simp_all
  rw [hval, hurl]
  simp only [Bool.false_eq_true, if_false, if_true]
  rw [show downloadImage env.download = .ok bytes from by rw [hdl]; rfl]
  unfold generateCvAfterImage
  cases hres : (retryWithExponentialBackoff env.provider 2 500).1 with
  | error e => simp [hres]
  | ok r => simp [hres]

/-- C10 witness: a cvData-only request with a successful image download;
the third part is the literal fallback prompt. -/
theorem image_payload_three_parts_witness :
    (generateCv ⟨0, .ok "IMGBYTES", fun _ => .ok "r"⟩ []
        ⟨none, none, some "http://img", some "cv-json", some "T:{prompt}", none, false⟩).2.2 =
      some (Payload.multi ((none : Option String).getD DEFAULT_SYSTEM_PROMPT)
        (fileToGenerativePart "IMGBYTES")
        (if truthy (none : Option String) then (none : Option String).getD ""
          else "Parse this CV/resume image")) :=
  image_payload_three_parts _ _ _ "IMGBYTES" (by decide) (by decide) rfl

/-- C7: when the model call fails under the retry wrapper (retries
exhausted or non-retriable), the handler answers 500 with `success:false`,
error `"Generation failed"`, and the original error message attached; the
store after the request is exactly its state after the pre-steps alone, so
neither a User nor an Assistant turn is recorded, and — absent a requested
clearHistory reset — every thread's stored turn sequence is unchanged. -/
theorem generation_failure_records_no_turn (env : HandlerEnv) (store : Store) (req : GenReq)
    (e : String)
    (hv : (truthy req.prompt || truthy req.cvData) = true)
    (himg : truthy req.imageUrl = false ∨ ∃ b, env.download = Except.ok b)
    (herr : (retryWithExponentialBackoff env.provider 2 500).1 = .error e) :
    (∃ p : Payload,
        generateCv env store req =
          (⟨500, false, some "Generation failed", some e, none, none⟩,
            preStepStore env store req, some p)) ∧
    (req.clearHistory = false →
      ∀ tid, (storeGet (preStepStore env store req) tid).getD []
        = (storeGet store tid).getD []) := by
  constructor
  · have hval : (!truthy req.prompt && !truthy req.cvData) = false := by
      cases hpp : truthy req.prompt <;> cases hcc : truthy req.cvData <;> simp_all
    have key : ∀ img, ∃ p : Payload, generateCvAfterImage env store req img =
        (⟨500, false, some "Generation failed", some e, none, none⟩,
          preStepStore env store req, some p) := by
      intro img
      unfold generateCvAfterImage preStepStore
      rw [herr]
      exact ⟨_, rfl⟩
    unfold generateCv
    rw [hval]
    rcases himg with hurl | ⟨b, hb⟩
    · rw [hurl]
      simp only [Bool.false_eq_true, if_false]
      exact key none
    · cases hurl : truthy req.imageUrl with
      | false =>
        simp only [Bool.false_eq_true, if_false]
        exact key none
      | true =>
        simp only [Bool.false_eq_true, if_false, if_true]
        rw [show downloadImage env.download = .ok b from by rw [hb]; rfl]
        exact key (some b)
  · intro hcl tid
    unfold preStepStore
    rw [hcl]
    simp only [Bool.false_eq_true, if_false]
    unfold getConversation
    simp only []
    cases hsg : storeGet store
        (if truthy req.threadID then req.threadID.getD "" else "cv-" ++ toString env.now) with
    | some h => simp [hsg]
    | none =>
      simp only [hsg]
      by_cases htid :
          (if truthy req.threadID then req.threadID.getD "" else "cv-" ++ toString env.now) = tid
      · rw [← htid, storeGet_storeSet_self, hsg]
        rfl
      · rw [storeGet_storeSet_ne _ _ _ _ htid]

/-- C7 witness: a prompt-only request against the empty store with a
non-retriable provider failure. -/
theorem generation_failure_records_no_turn_witness :
    (∃ p : Payload,
        generateCv ⟨0, .error "u", fun _ => .error "boom"⟩ []
            ⟨some "hi", none, none, none, none, none, false⟩ =
          (⟨500, false, some "Generation failed", some "boom", none, none⟩,
            preStepStore ⟨0, .error "u", fun _ => .error "boom"⟩ []
              ⟨some "hi", none, none, none, none, none, false⟩, some p)) ∧
    ((⟨some "hi", none, none, none, none, none, false⟩ : GenReq).clearHistory = false →
      ∀ tid, (storeGet (preStepStore ⟨0, .error "u", fun _ => .error "boom"⟩ []
          ⟨some "hi", none, none, none, none, none, false⟩) tid).getD []
        = (storeGet [] tid).getD []) :=
  generation_failure_records_no_turn _ _ _ "boom" (by decide) (Or.inl (by decide)) rfl
